import Mathlib

/-!
Shallow embedding of the recommendation scorer of
`src/server/services/recommendations.ts`, together with the entity records it
consumes (`src/shared/schema.ts`).

JavaScript semantics the code relies on are modelled explicitly: truthiness
and `||` defaulting for nullable strings and numbers, `parseFloat`,
`String.prototype.includes`, `toLowerCase`, `Array.prototype.find`, and the
stable `Array.prototype.sort` guaranteed by ES2019.  JavaScript numbers are
modelled as exact rationals.  The Haversine formula (`calculateDistance` in
the source) is a pure numeric function whose output feeds only into ordinary
comparisons that are kept in the model, so it is passed around as an explicit
function parameter `hav`; no claim depends on its numeric value.
-/

namespace C290

/-- JS truthiness of a nullable string: `null` and `""` are falsy. -/
def strTruthy : Option String → Bool
  | none => false
  | some s => !(s == "")

/-- JS `x || d` for a nullable string (`null` and `""` fall back to `d`). -/
def jsOrStr (o : Option String) (d : String) : String :=
  match o with
  | none => d
  | some s => if s == "" then d else s

/-- JS `x || d` for a nullable number (`null` and `0` fall back to `d`). -/
def jsOrQ (o : Option ℚ) (d : ℚ) : ℚ :=
  match o with
  | none => d
  | some v => if v = 0 then d else v

/-- Numeric value of a list of decimal digits. -/
def digitsToNat (cs : List Char) : ℕ :=
  cs.foldl (fun a c => 10 * a + (c.toNat - 48)) 0

/-- Model of JS `parseFloat`, covering the decimal literals stored in the
schema's decimal columns: optional leading whitespace and sign, an integer
part and an optional fractional part; trailing text is ignored and the result
is `none` (JS `NaN`) when no digit is found.  Exponent notation and
`Infinity` are not modelled. -/
def jsParseFloat (s : String) : Option ℚ :=
  let cs := s.toList.dropWhile Char.isWhitespace
  let signed : ℚ × List Char :=
    match cs with
    | '-' :: rest => (-1, rest)
    | '+' :: rest => (1, rest)
    | _ => (1, cs)
  let intPart := signed.2.takeWhile Char.isDigit
  let rest := signed.2.dropWhile Char.isDigit
  let fracPart :=
    match rest with
    | '.' :: r => r.takeWhile Char.isDigit
    | _ => []
  if intPart.isEmpty && fracPart.isEmpty then none
  else
    some (signed.1 * ((digitsToNat intPart : ℚ) +
      (digitsToNat fracPart : ℚ) / (10 : ℚ) ^ fracPart.length))

/-- Whether the pattern occurs at the head of the second list. -/
def leadEq : List Char → List Char → Bool
  | [], _ => true
  | _ :: _, [] => false
  | a :: as, b :: bs => a == b && leadEq as bs

/-- Whether the pattern occurs anywhere inside the second list. -/
def hasSub (pat : List Char) : List Char → Bool
  | [] => pat.isEmpty
  | c :: rest => leadEq pat (c :: rest) || hasSub pat rest

/-- JS `s.includes(sub)`. -/
def jsIncludes (s sub : String) : Bool :=
  hasSub sub.toList s.toList

/-! Entity records, from `src/shared/schema.ts` (`$inferSelect` row types).
Nullable columns are `Option`; `decimal` columns are strings, as in the
TypeScript row types. -/

/-- Row type of the `canteens` table. -/
structure Canteen where
  id : String
  name : String
  location : String
  totalStalls : Int
deriving DecidableEq, Repr

/-- Row type of the `stalls` table.  `estimatedWaitTime` takes part in score
arithmetic, so it is modelled as a rational (JS number). -/
structure Stall where
  id : String
  canteenId : String
  name : String
  cuisineType : String
  currentQueue : Int
  estimatedWaitTime : ℚ
  rating : Option String
  reviewCount : Int
deriving DecidableEq, Repr

/-- Row type of the `campus_blocks` table. -/
structure CampusBlock where
  id : String
  name : String
  shortName : String
  latitude : Option String
  longitude : Option String
  nearestCanteenId : Option String
deriving DecidableEq, Repr

/-- Row type of the `user_preferences` table.  `maxQueueTime` and
`maxWalkingDistance` are modelled as nullable to capture the defensive `||`
coalescing performed by the scorer (the JS code guards both `null` and `0`).
-/
structure UserPreferences where
  id : String
  userId : String
  cuisineTypes : Option (List String)
  dietaryRestrictions : Option (List String)
  spiceLevel : Option String
  priceRange : Option String
  maxQueueTime : Option ℚ
  maxWalkingDistance : Option ℚ
  preferLowCost : Bool
  avoidPeakHours : Bool
deriving DecidableEq, Repr

/-- Row type of the `users` table (the scorer receives but never reads it). -/
structure User where
  id : String
  username : String
  email : String
  passwordHash : String
  fullName : String
  phoneNumber : Option String
  currentBlockId : Option String
  isDeliveryPerson : Bool
  deliveryAvailable : Bool
  totalDeliveries : Int
  voucherBalance : String
deriving DecidableEq, Repr

/-- The `'high' | 'medium' | 'low'` confidence union type. -/
inductive Confidence where
  | high
  | medium
  | low
deriving DecidableEq, Repr

/-- The `breakdown` field of `ScoredStall`. -/
structure Breakdown where
  preferenceScore : ℚ
  proximityScore : ℚ
  queueScore : ℚ
  ratingScore : ℚ
deriving DecidableEq, Repr

/-- The `ScoredStall` output record.  The source declares `canteen: Canteen`
but assigns `canteen!`, which is `undefined` at runtime when the lookup
fails; the model keeps the honest `Option`. -/
structure ScoredStall where
  stall : Stall
  canteen : Option Canteen
  distance : Option ℚ
  score : ℚ
  breakdown : Breakdown
  confidence : Confidence
deriving DecidableEq, Repr

/-- The `WEIGHTS` configuration object. -/
structure Weights where
  PREFERENCE : ℚ
  PROXIMITY : ℚ
  QUEUE : ℚ
  RATING : ℚ
deriving DecidableEq, Repr

/-- The `WEIGHTS` constant of the source. -/
def WEIGHTS : Weights :=
  { PREFERENCE := 35 / 100, PROXIMITY := 25 / 100, QUEUE := 20 / 100, RATING := 20 / 100 }

/-- `calculatePreferenceScore` (source lines 53-79). -/
def calculatePreferenceScore (userCuisines : List String) (stallCuisine : String)
    (dietaryRestrictions : List String) : ℚ :=
  let hasConflict := dietaryRestrictions.any (fun restriction =>
    (restriction.toLower == "vegetarian" && jsIncludes stallCuisine.toLower "meat") ||
    (restriction.toLower == "halal" && !jsIncludes stallCuisine.toLower "halal"))
  if hasConflict then 0
  else if userCuisines.any (fun cuisine => cuisine.toLower == stallCuisine.toLower) then 1
  else 3 / 10

/-- `normalizeProximity` (source lines 85-89). -/
def normalizeProximity (distanceMeters maxDistance : ℚ) : ℚ :=
  if distanceMeters ≥ maxDistance then 0 else 1 - distanceMeters / maxDistance

/-- `normalizeQueueTime` (source lines 95-99). -/
def normalizeQueueTime (waitMinutes maxWait : ℚ) : ℚ :=
  if waitMinutes ≥ maxWait then 0 else 1 - waitMinutes / maxWait

/-- `normalizeRating` (source lines 104-108). -/
def normalizeRating (rating : String) : ℚ :=
  match jsParseFloat rating with
  | none => 1 / 2
  | some r => min (r / 5) 1

/-- Effective `cuisineTypes` (composition of the `preferences || {...}`
default object of source lines 121-128 with `prefs.cuisineTypes || []` of
line 131; an empty array is truthy in JS, so `getD` is exact). -/
def effectiveCuisineTypes : Option UserPreferences → List String
  | none => []
  | some p => p.cuisineTypes.getD []

/-- Effective `dietaryRestrictions` (source lines 121-132). -/
def effectiveDietaryRestrictions : Option UserPreferences → List String
  | none => []
  | some p => p.dietaryRestrictions.getD []

/-- Effective `maxQueueTime` (`prefs.maxQueueTime || 30`, source line 133). -/
def effectiveMaxQueueTime : Option UserPreferences → ℚ
  | none => 30
  | some p => jsOrQ p.maxQueueTime 30

/-- Effective `maxWalkingDistance` (`prefs.maxWalkingDistance || 1000`,
source line 134). -/
def effectiveMaxWalkingDistance : Option UserPreferences → ℚ
  | none => 1000
  | some p => jsOrQ p.maxWalkingDistance 1000

/-- Confidence computation (source lines 138-141). -/
def computeConfidence (preferences : Option UserPreferences)
    (userBlock : Option CampusBlock) : Confidence :=
  if userBlock.isNone then .low
  else if preferences.isNone || (effectiveCuisineTypes preferences).length == 0 then .medium
  else .high

/-- Coordinate fed to the Haversine call: `parseFloat(block.latitude || "0")`
(source lines 151-156).  The schema stores coordinates as decimal strings, so
the parse succeeds on them; `getD 0` covers the `"0"` fallback. -/
def coordVal (o : Option String) : ℚ :=
  (jsParseFloat (jsOrStr o "0")).getD 0

/-- One element of the intermediate `stallsWithDistance` array. -/
structure StallWithDistance where
  stall : Stall
  canteen : Option Canteen
  distance : Option ℚ
deriving DecidableEq, Repr

/-- Body of the `stallsWithDistance` map (source lines 144-161): resolve the
owning canteen with `Array.find`, then the first block whose
`nearestCanteenId` equals the canteen's id, and compute the distance exactly
when that block's latitude and longitude are truthy.  The user block's own
coordinates are not checked; they default to `"0"`. -/
def stallDistance (hav : ℚ → ℚ → ℚ → ℚ → ℚ) (userBlock : Option CampusBlock)
    (canteens : List Canteen) (blocks : List CampusBlock) (stall : Stall) :
    StallWithDistance :=
  let canteen := canteens.find? (fun c => c.id == stall.canteenId)
  let distance : Option ℚ :=
    match userBlock, canteen with
    | some ub, some cn =>
      match blocks.find? (fun b => b.nearestCanteenId == some cn.id) with
      | some cb =>
        if strTruthy cb.latitude && strTruthy cb.longitude then
          some (hav (coordVal ub.latitude) (coordVal ub.longitude)
            (coordVal cb.latitude) (coordVal cb.longitude))
        else none
      | none => none
    | _, _ => none
  { stall := stall, canteen := canteen, distance := distance }

/-- The hard-filter predicate (source lines 163-176). -/
def hardFilter (maxQueueTime maxWalkingDistance : ℚ) (x : StallWithDistance) : Bool :=
  if x.stall.estimatedWaitTime > maxQueueTime then false
  else
    match x.distance with
    | some d => if d > maxWalkingDistance then false else true
    | none => true

/-- Body of the scoring map (source lines 179-218). -/
def scoreStall (cuisineTypes dietaryRestrictions : List String)
    (maxQueueTime maxWalkingDistance : ℚ) (confidence : Confidence)
    (x : StallWithDistance) : ScoredStall :=
  let proximityScore : ℚ :=
    match x.distance with
    | some d => normalizeProximity d maxWalkingDistance
    | none => 1 / 2
  let preferenceScore : ℚ :=
    if cuisineTypes.length > 0 then
      calculatePreferenceScore cuisineTypes x.stall.cuisineType dietaryRestrictions
    else 1 / 2
  let queueScore := normalizeQueueTime x.stall.estimatedWaitTime maxQueueTime
  let ratingScore := normalizeRating (jsOrStr x.stall.rating "3.5")
  let totalScore :=
    preferenceScore * WEIGHTS.PREFERENCE +
    proximityScore * WEIGHTS.PROXIMITY +
    queueScore * WEIGHTS.QUEUE +
    ratingScore * WEIGHTS.RATING
  { stall := x.stall, canteen := x.canteen, distance := x.distance, score := totalScore,
    breakdown :=
      { preferenceScore := preferenceScore, proximityScore := proximityScore,
        queueScore := queueScore, ratingScore := ratingScore },
    confidence := confidence }

/-- The descending-score ordering used by the final sort's comparator
`(a, b) => b.score - a.score`. -/
def scoreGE (a b : ScoredStall) : Prop :=
  b.score ≤ a.score

instance : DecidableRel scoreGE :=
  fun a b => inferInstanceAs (Decidable (b.score ≤ a.score))

instance : IsTotal ScoredStall scoreGE :=
  ⟨fun a b => le_total b.score a.score⟩

instance : IsTrans ScoredStall scoreGE :=
  ⟨fun _ _ _ h1 h2 => le_trans h2 h1⟩

/-- Model of `validStalls.sort((a, b) => b.score - a.score)`.  ES2019
guarantees `Array.prototype.sort` is stable, and for a total transitive
comparator the stable sorted result is unique, so any stable sorting
algorithm computes it; insertion sort is used here. -/
def sortByScoreDesc (l : List ScoredStall) : List ScoredStall :=
  l.insertionSort scoreGE

/-- The intermediate `stallsWithDistance` array (source lines 144-161). -/
def stallsWithDistance (hav : ℚ → ℚ → ℚ → ℚ → ℚ) (userBlock : Option CampusBlock)
    (canteens : List Canteen) (blocks : List CampusBlock) (stalls : List Stall) :
    List StallWithDistance :=
  stalls.map (stallDistance hav userBlock canteens blocks)

/-- The intermediate `filteredStalls` array (source lines 163-176). -/
def filteredStalls (hav : ℚ → ℚ → ℚ → ℚ → ℚ) (preferences : Option UserPreferences)
    (userBlock : Option CampusBlock) (canteens : List Canteen)
    (blocks : List CampusBlock) (stalls : List Stall) : List StallWithDistance :=
  (stallsWithDistance hav userBlock canteens blocks stalls).filter
    (hardFilter (effectiveMaxQueueTime preferences) (effectiveMaxWalkingDistance preferences))

/-- The intermediate `scoredStalls` array (source lines 179-218). -/
def scoredStalls (hav : ℚ → ℚ → ℚ → ℚ → ℚ) (preferences : Option UserPreferences)
    (userBlock : Option CampusBlock) (canteens : List Canteen)
    (blocks : List CampusBlock) (stalls : List Stall) : List ScoredStall :=
  (filteredStalls hav preferences userBlock canteens blocks stalls).map
    (scoreStall (effectiveCuisineTypes preferences) (effectiveDietaryRestrictions preferences)
      (effectiveMaxQueueTime preferences) (effectiveMaxWalkingDistance preferences)
      (computeConfidence preferences userBlock))

/-- The intermediate `validStalls` array (source lines 220-221): soft filter
dropping scores not strictly above `0.1`. -/
def validStalls (hav : ℚ → ℚ → ℚ → ℚ → ℚ) (preferences : Option UserPreferences)
    (userBlock : Option CampusBlock) (canteens : List Canteen)
    (blocks : List CampusBlock) (stalls : List Stall) : List ScoredStall :=
  (scoredStalls hav preferences userBlock canteens blocks stalls).filter
    (fun s => decide (s.score > 1 / 10))

/-- `calculateRecommendations` (source lines 114-225), with the Haversine
abstracted as `hav`.  The `user` argument is received and never read, as in
the source. -/
def calculateRecommendations (hav : ℚ → ℚ → ℚ → ℚ → ℚ) (user : User)
    (preferences : Option UserPreferences) (userBlock : Option CampusBlock)
    (stalls : List Stall) (canteens : List Canteen) (blocks : List CampusBlock) :
    List ScoredStall :=
  sortByScoreDesc (validStalls hav preferences userBlock canteens blocks stalls)

/-! Concrete sample records used by witnesses and counterexamples. -/

/-- A Haversine stand-in returning distance 0 everywhere. -/
def havZero : ℚ → ℚ → ℚ → ℚ → ℚ := fun _ _ _ _ => 0

/-- A sample user record. -/
def sampleUser : User :=
  { id := "u1", username := "alice", email := "a@x", passwordHash := "h",
    fullName := "Alice", phoneNumber := none, currentBlockId := none,
    isDeliveryPerson := false, deliveryAvailable := false,
    totalDeliveries := 0, voucherBalance := "0" }

/-- A sample stall (10 min wait, rating 4.5). -/
def sampleStall : Stall :=
  { id := "s1", canteenId := "c1", name := "Noodle House", cuisineType := "Chinese",
    currentQueue := 3, estimatedWaitTime := 10, rating := some "4.5", reviewCount := 12 }

/-- A sample canteen owning `sampleStall`. -/
def sampleCanteen : Canteen :=
  { id := "c1", name := "North Canteen", location := "North", totalStalls := 1 }

/-- A block with coordinates whose nearest canteen is `sampleCanteen`. -/
def blockWithCoords : CampusBlock :=
  { id := "b1", name := "Science", shortName := "SCI",
    latitude := some "1.5", longitude := some "103.75", nearestCanteenId := some "c1" }

/-- A block carrying no coordinates at all. -/
def blockNoCoords : CampusBlock :=
  { id := "b2", name := "Arts", shortName := "ART",
    latitude := none, longitude := none, nearestCanteenId := none }

/-- A stall whose rating field holds the empty string. -/
def emptyRatingStall : Stall :=
  { id := "s2", canteenId := "c1", name := "Rice Bowl", cuisineType := "Western",
    currentQueue := 0, estimatedWaitTime := 10, rating := some "", reviewCount := 0 }

/-- A preferences record whose two limits are `0` and `null`. -/
def samplePrefsZero : UserPreferences :=
  { id := "p1", userId := "u1", cuisineTypes := none, dietaryRestrictions := none,
    spiceLevel := none, priceRange := none, maxQueueTime := some 0,
    maxWalkingDistance := none, preferLowCost := false, avoidPeakHours := false }

/-- A preferences record with a zero queue limit but an ordinary walking
limit of 800 m. -/
def samplePrefsZeroQueue : UserPreferences :=
  { id := "p2", userId := "u1", cuisineTypes := none, dietaryRestrictions := none,
    spiceLevel := none, priceRange := none, maxQueueTime := some 0,
    maxWalkingDistance := some 800, preferLowCost := false, avoidPeakHours := false }

/-- The record `samplePrefsZeroQueue` with only the queue limit replaced by
its default. -/
def samplePrefsZeroQueueSub : UserPreferences :=
  { samplePrefsZeroQueue with maxQueueTime := some 30 }

/-- The record `samplePrefsZero` with only the walking limit replaced by its
default. -/
def samplePrefsZeroWalkSub : UserPreferences :=
  { samplePrefsZero with maxWalkingDistance := some 1000 }

/-- The scored entry that `calculateRecommendations havZero sampleUser none
none [sampleStall] [] []` produces. -/
def sampleScored : ScoredStall :=
  { stall := sampleStall, canteen := none, distance := none, score := 46 / 75,
    breakdown :=
      { preferenceScore := 1 / 2, proximityScore := 1 / 2,
        queueScore := 2 / 3, ratingScore := 9 / 10 },
    confidence := .low }

example : jsParseFloat "3.5" = some (7 / 2) := by with_unfolding_all decide
example : jsParseFloat "" = none := by with_unfolding_all decide
example : jsParseFloat "4.50" = some (9 / 2) := by with_unfolding_all decide
example : jsParseFloat "-1.25" = some (-5 / 4) := by with_unfolding_all decide
example : jsIncludes "halal meat" "meat" = true := by with_unfolding_all decide
example : jsIncludes "chinese" "meat" = false := by with_unfolding_all decide
example :
    calculateRecommendations havZero sampleUser none none [sampleStall] [] [] =
      [sampleScored] := by with_unfolding_all decide
example :
    (calculateRecommendations havZero sampleUser none (some blockNoCoords)
        [sampleStall] [sampleCanteen] [blockWithCoords]).map (fun r => r.distance) =
      [some 0] := by with_unfolding_all decide

/-! General lemmas about the pipeline. -/

theorem stallDistance_stall (hav : ℚ → ℚ → ℚ → ℚ → ℚ) (ub : Option CampusBlock)
    (cs : List Canteen) (bs : List CampusBlock) (s : Stall) :
    (stallDistance hav ub cs bs s).stall = s := rfl

theorem stallDistance_canteen (hav : ℚ → ℚ → ℚ → ℚ → ℚ) (ub : Option CampusBlock)
    (cs : List Canteen) (bs : List CampusBlock) (s : Stall) :
    (stallDistance hav ub cs bs s).canteen = cs.find? (fun c => c.id == s.canteenId) := rfl

theorem scoreStall_stall (c d : List String) (mq mw : ℚ) (conf : Confidence)
    (x : StallWithDistance) : (scoreStall c d mq mw conf x).stall = x.stall := rfl

theorem scoreStall_canteen (c d : List String) (mq mw : ℚ) (conf : Confidence)
    (x : StallWithDistance) : (scoreStall c d mq mw conf x).canteen = x.canteen := rfl

theorem scoreStall_distance (c d : List String) (mq mw : ℚ) (conf : Confidence)
    (x : StallWithDistance) : (scoreStall c d mq mw conf x).distance = x.distance := rfl

theorem scoreStall_confidence (c d : List String) (mq mw : ℚ) (conf : Confidence)
    (x : StallWithDistance) : (scoreStall c d mq mw conf x).confidence = conf := rfl

theorem scoreStall_preferenceScore (c d : List String) (mq mw : ℚ) (conf : Confidence)
    (x : StallWithDistance) :
    (scoreStall c d mq mw conf x).breakdown.preferenceScore =
      if c.length > 0 then calculatePreferenceScore c x.stall.cuisineType d
      else 1 / 2 := rfl

theorem scoreStall_proximityScore (c d : List String) (mq mw : ℚ) (conf : Confidence)
    (x : StallWithDistance) :
    (scoreStall c d mq mw conf x).breakdown.proximityScore =
      (match x.distance with
        | some dd => normalizeProximity dd mw
        | none => 1 / 2) := rfl

theorem scoreStall_queueScore (c d : List String) (mq mw : ℚ) (conf : Confidence)
    (x : StallWithDistance) :
    (scoreStall c d mq mw conf x).breakdown.queueScore =
      normalizeQueueTime x.stall.estimatedWaitTime mq := rfl

theorem scoreStall_ratingScore (c d : List String) (mq mw : ℚ) (conf : Confidence)
    (x : StallWithDistance) :
    (scoreStall c d mq mw conf x).breakdown.ratingScore =
      normalizeRating (jsOrStr x.stall.rating "3.5") := rfl

theorem scoreStall_score (c d : List String) (mq mw : ℚ) (conf : Confidence)
    (x : StallWithDistance) :
    (scoreStall c d mq mw conf x).score =
      (scoreStall c d mq mw conf x).breakdown.preferenceScore * WEIGHTS.PREFERENCE +
      (scoreStall c d mq mw conf x).breakdown.proximityScore * WEIGHTS.PROXIMITY +
      (scoreStall c d mq mw conf x).breakdown.queueScore * WEIGHTS.QUEUE +
      (scoreStall c d mq mw conf x).breakdown.ratingScore * WEIGHTS.RATING := rfl

theorem hardFilter_eq_true_iff (mq mw : ℚ) (x : StallWithDistance) :
    hardFilter mq mw x = true ↔
      x.stall.estimatedWaitTime ≤ mq ∧ ∀ d, x.distance = some d → d ≤ mw := by
  unfold hardFilter
  rcases hx : x.distance with _ | d <;> split_ifs with h <;> simp_all

theorem hardFilter_eq_false_iff (mq mw : ℚ) (x : StallWithDistance) :
    hardFilter mq mw x = false ↔
      x.stall.estimatedWaitTime > mq ∨ ∃ d, x.distance = some d ∧ d > mw := by
  rw [← Bool.not_eq_true, hardFilter_eq_true_iff]
  push_neg
  constructor
  · intro h
    by_cases hw : x.stall.estimatedWaitTime ≤ mq
    · obtain ⟨d, hd, hdm⟩ := h hw
      exact Or.inr ⟨d, hd, hdm⟩
    · exact Or.inl (lt_of_not_le hw)
  · rintro (h | ⟨d, hd, hdm⟩) hw
    · exact absurd hw (not_le_of_lt h)
    · exact ⟨d, hd, hdm⟩

theorem mem_sortByScoreDesc {r : ScoredStall} {l : List ScoredStall} :
    r ∈ sortByScoreDesc l ↔ r ∈ l :=
  List.mem_insertionSort scoreGE

theorem sortByScoreDesc_pairwise (l : List ScoredStall) :
    (sortByScoreDesc l).Pairwise scoreGE :=
  List.sorted_insertionSort scoreGE l

theorem sortByScoreDesc_filter_score (l : List ScoredStall) (q : ℚ) :
    (sortByScoreDesc l).filter (fun s => decide (s.score = q)) =
      l.filter (fun s => decide (s.score = q)) := by
  set p : ScoredStall → Bool := fun s => decide (s.score = q) with hp
  have hpw : (l.filter p).Pairwise scoreGE := by
    have hall : ∀ a ∈ l.filter p, ∀ b ∈ l.filter p, scoreGE a b := by
      intro a ha b hb
      have ha' := (List.mem_filter.mp ha).2
      have hb' := (List.mem_filter.mp hb).2
      simp only [hp, decide_eq_true_eq] at ha' hb'
      unfold scoreGE
      rw [ha', hb']
    exact List.pairwise_of_forall_mem_list hall
  have hsub : List.Sublist (l.filter p) (sortByScoreDesc l) :=
    List.sublist_insertionSort hpw (List.filter_sublist l)
  have hsub2 : List.Sublist (l.filter p) ((sortByScoreDesc l).filter p) := by
    have h := hsub.filter p
    rwa [List.filter_eq_self.mpr (fun a ha => (List.mem_filter.mp ha).2)] at h
  have hlen : ((sortByScoreDesc l).filter p).length = (l.filter p).length :=
    ((List.perm_insertionSort scoreGE l).filter p).length_eq
  exact (hsub2.eq_of_length hlen.symm).symm

theorem mem_calculateRecommendations {hav : ℚ → ℚ → ℚ → ℚ → ℚ} {u : User}
    {p : Option UserPreferences} {ub : Option CampusBlock} {stalls : List Stall}
    {cs : List Canteen} {bs : List CampusBlock} {r : ScoredStall} :
    r ∈ calculateRecommendations hav u p ub stalls cs bs ↔
      r ∈ scoredStalls hav p ub cs bs stalls ∧ r.score > 1 / 10 := by
  unfold calculateRecommendations validStalls
  rw [mem_sortByScoreDesc, List.mem_filter]
  simp

theorem mem_scoredStalls {hav : ℚ → ℚ → ℚ → ℚ → ℚ} {p : Option UserPreferences}
    {ub : Option CampusBlock} {stalls : List Stall} {cs : List Canteen}
    {bs : List CampusBlock} {r : ScoredStall} :
    r ∈ scoredStalls hav p ub cs bs stalls ↔
      ∃ s ∈ stalls,
        hardFilter (effectiveMaxQueueTime p) (effectiveMaxWalkingDistance p)
            (stallDistance hav ub cs bs s) = true ∧
        r = scoreStall (effectiveCuisineTypes p) (effectiveDietaryRestrictions p)
              (effectiveMaxQueueTime p) (effectiveMaxWalkingDistance p)
              (computeConfidence p ub) (stallDistance hav ub cs bs s) := by
  unfold scoredStalls filteredStalls stallsWithDistance
  simp only [List.mem_map, List.mem_filter]
  constructor
  · rintro ⟨x, ⟨⟨s, hs, rfl⟩, hf⟩, rfl⟩
    exact ⟨s, hs, hf, rfl⟩
  · rintro ⟨s, hs, hf, rfl⟩
    exact ⟨stallDistance hav ub cs bs s, ⟨⟨s, hs, rfl⟩, hf⟩, rfl⟩

theorem score_eq_weighted {hav : ℚ → ℚ → ℚ → ℚ → ℚ} {p : Option UserPreferences}
    {ub : Option CampusBlock} {stalls : List Stall} {cs : List Canteen}
    {bs : List CampusBlock} {r : ScoredStall}
    (hmem : r ∈ scoredStalls hav p ub cs bs stalls) :
    r.score =
      r.breakdown.preferenceScore * (35 / 100) +
      r.breakdown.proximityScore * (25 / 100) +
      r.breakdown.queueScore * (20 / 100) +
      r.breakdown.ratingScore * (20 / 100) := by
  obtain ⟨s, _, _, rfl⟩ := mem_scoredStalls.mp hmem
  exact scoreStall_score _ _ _ _ _ _

theorem confidence_of_mem {hav : ℚ → ℚ → ℚ → ℚ → ℚ} {p : Option UserPreferences}
    {ub : Option CampusBlock} {stalls : List Stall} {cs : List Canteen}
    {bs : List CampusBlock} {r : ScoredStall}
    (hmem : r ∈ scoredStalls hav p ub cs bs stalls) :
    r.confidence = computeConfidence p ub := by
  obtain ⟨s, _, _, rfl⟩ := mem_scoredStalls.mp hmem
  exact scoreStall_confidence _ _ _ _ _ _

theorem canteen_of_mem {hav : ℚ → ℚ → ℚ → ℚ → ℚ} {p : Option UserPreferences}
    {ub : Option CampusBlock} {stalls : List Stall} {cs : List Canteen}
    {bs : List CampusBlock} {r : ScoredStall}
    (hmem : r ∈ scoredStalls hav p ub cs bs stalls) :
    r.canteen = cs.find? (fun c => c.id == r.stall.canteenId) := by
  obtain ⟨s, _, _, rfl⟩ := mem_scoredStalls.mp hmem
  rw [scoreStall_canteen, scoreStall_stall, stallDistance_stall, stallDistance_canteen]

theorem distance_of_mem {hav : ℚ → ℚ → ℚ → ℚ → ℚ} {p : Option UserPreferences}
    {ub : Option CampusBlock} {stalls : List Stall} {cs : List Canteen}
    {bs : List CampusBlock} {r : ScoredStall}
    (hmem : r ∈ scoredStalls hav p ub cs bs stalls) :
    r.distance = (stallDistance hav ub cs bs r.stall).distance := by
  obtain ⟨s, _, _, rfl⟩ := mem_scoredStalls.mp hmem
  rw [scoreStall_distance, scoreStall_stall, stallDistance_stall]

theorem ratingScore_of_mem {hav : ℚ → ℚ → ℚ → ℚ → ℚ} {p : Option UserPreferences}
    {ub : Option CampusBlock} {stalls : List Stall} {cs : List Canteen}
    {bs : List CampusBlock} {r : ScoredStall}
    (hmem : r ∈ scoredStalls hav p ub cs bs stalls) :
    r.breakdown.ratingScore = normalizeRating (jsOrStr r.stall.rating "3.5") := by
  obtain ⟨s, _, _, rfl⟩ := mem_scoredStalls.mp hmem
  rw [scoreStall_ratingScore, scoreStall_stall]

theorem preferenceScore_of_mem {hav : ℚ → ℚ → ℚ → ℚ → ℚ} {p : Option UserPreferences}
    {ub : Option CampusBlock} {stalls : List Stall} {cs : List Canteen}
    {bs : List CampusBlock} {r : ScoredStall}
    (hmem : r ∈ scoredStalls hav p ub cs bs stalls) :
    r.breakdown.preferenceScore =
      if (effectiveCuisineTypes p).length > 0 then
        calculatePreferenceScore (effectiveCuisineTypes p) r.stall.cuisineType
          (effectiveDietaryRestrictions p)
      else 1 / 2 := by
  obtain ⟨s, _, _, rfl⟩ := mem_scoredStalls.mp hmem
  rw [scoreStall_preferenceScore, scoreStall_stall]

theorem conflict_exists_iff (sc : String) (dr : List String) :
    (dr.any (fun restriction =>
      (restriction.toLower == "vegetarian" && jsIncludes sc.toLower "meat") ||
      (restriction.toLower == "halal" && !jsIncludes sc.toLower "halal"))) = true ↔
    ∃ restr ∈ dr,
      (restr.toLower = "vegetarian" ∧ jsIncludes sc.toLower "meat" = true) ∨
      (restr.toLower = "halal" ∧ jsIncludes sc.toLower "halal" = false) := by
  simp [List.any_eq_true, Bool.and_eq_true, Bool.or_eq_true, Bool.not_eq_true']

theorem preferred_exists_iff (uc : List String) (sc : String) :
    (uc.any (fun cuisine => cuisine.toLower == sc.toLower)) = true ↔
    ∃ c ∈ uc, c.toLower = sc.toLower := by
  simp [List.any_eq_true]

theorem calculatePreferenceScore_eq_zero {uc : List String} {sc : String}
    {dr : List String}
    (h : ∃ restr ∈ dr,
      (restr.toLower = "vegetarian" ∧ jsIncludes sc.toLower "meat" = true) ∨
      (restr.toLower = "halal" ∧ jsIncludes sc.toLower "halal" = false)) :
    calculatePreferenceScore uc sc dr = 0 := by
  have hb := (conflict_exists_iff sc dr).mpr h
  simp [calculatePreferenceScore, hb]

theorem calculatePreferenceScore_no_conflict {uc : List String} {sc : String}
    {dr : List String}
    (h : ¬∃ restr ∈ dr,
      (restr.toLower = "vegetarian" ∧ jsIncludes sc.toLower "meat" = true) ∨
      (restr.toLower = "halal" ∧ jsIncludes sc.toLower "halal" = false)) :
    calculatePreferenceScore uc sc dr =
      if (uc.any (fun cuisine => cuisine.toLower == sc.toLower)) then 1 else 3 / 10 := by
  have hb : (dr.any (fun restriction =>
      (restriction.toLower == "vegetarian" && jsIncludes sc.toLower "meat") ||
      (restriction.toLower == "halal" && !jsIncludes sc.toLower "halal"))) = false := by
    rw [← Bool.not_eq_true, conflict_exists_iff]
    exact h
  simp [calculatePreferenceScore, hb]

/-! Claim theorems. -/

/-- C2 (confirmed): a stall is dropped by the hard filter stage if and only
if its estimated wait time strictly exceeds the effective max queue time, or
its computed distance is defined and strictly exceeds the effective max
walking distance; a stall whose distance is undefined is never filtered by
distance, and every entry of the output respects both bounds (a dropped
stall never appears in the output). -/
theorem hard_filter_drop_iff (hav : ℚ → ℚ → ℚ → ℚ → ℚ) (u : User)
    (p : Option UserPreferences) (ub : Option CampusBlock) (stalls : List Stall)
    (cs : List Canteen) (bs : List CampusBlock) (r : ScoredStall)
    (hr : r ∈ calculateRecommendations hav u p ub stalls cs bs) :
    (∀ x : StallWithDistance,
        hardFilter (effectiveMaxQueueTime p) (effectiveMaxWalkingDistance p) x = false ↔
          x.stall.estimatedWaitTime > effectiveMaxQueueTime p ∨
          ∃ d, x.distance = some d ∧ d > effectiveMaxWalkingDistance p) ∧
    r.stall.estimatedWaitTime ≤ effectiveMaxQueueTime p ∧
    (∀ d, r.distance = some d → d ≤ effectiveMaxWalkingDistance p) := by
  refine ⟨fun x => hardFilter_eq_false_iff _ _ x, ?_⟩
  obtain ⟨hmem, _⟩ := mem_calculateRecommendations.mp hr
  obtain ⟨s, _, hf, rfl⟩ := mem_scoredStalls.mp hmem
  have h := (hardFilter_eq_true_iff _ _ _).mp hf
  simpa [scoreStall_stall, scoreStall_distance] using h

/-- Witness for C2 at a concrete input. -/
theorem hard_filter_drop_iff_witness :
    sampleScored.stall.estimatedWaitTime ≤ effectiveMaxQueueTime none ∧
    (∀ d, sampleScored.distance = some d → d ≤ effectiveMaxWalkingDistance none) :=
  (hard_filter_drop_iff havZero sampleUser none none [sampleStall] [] [] sampleScored
    (by with_unfolding_all decide)).2

/-- C3 (confirmed): every entry of the returned sequence has total score
strictly greater than 0.1, every scored stall with total score at most 0.1
is excluded, and the returned sequence is sorted in non-increasing order of
total score. -/
theorem output_soft_filtered_and_sorted (hav : ℚ → ℚ → ℚ → ℚ → ℚ) (u : User)
    (p : Option UserPreferences) (ub : Option CampusBlock) (stalls : List Stall)
    (cs : List Canteen) (bs : List CampusBlock) (r : ScoredStall)
    (hr : r ∈ calculateRecommendations hav u p ub stalls cs bs) :
    r.score > 1 / 10 ∧
    (calculateRecommendations hav u p ub stalls cs bs).Pairwise
      (fun a b => b.score ≤ a.score) ∧
    (∀ s ∈ scoredStalls hav p ub cs bs stalls, ¬s.score > 1 / 10 →
        s ∉ calculateRecommendations hav u p ub stalls cs bs) := by
  refine ⟨(mem_calculateRecommendations.mp hr).2, sortByScoreDesc_pairwise _, ?_⟩
  intro s _ hns hmem
  exact hns (mem_calculateRecommendations.mp hmem).2

/-- Witness for C3 at a concrete input. -/
theorem output_soft_filtered_and_sorted_witness :
    sampleScored.score > 1 / 10 :=
  (output_soft_filtered_and_sorted havZero sampleUser none none [sampleStall] [] []
    sampleScored (by with_unfolding_all decide)).1

/-- C4 (confirmed): every returned entry's total score is exactly the fixed
weighted sum of its breakdown sub-scores with weights 0.35, 0.25, 0.20, 0.20
(summing to 1), and when each sub-score lies in [0, 1] the total score lies
in [0, 1]. -/
theorem score_is_weighted_sum (hav : ℚ → ℚ → ℚ → ℚ → ℚ) (u : User)
    (p : Option UserPreferences) (ub : Option CampusBlock) (stalls : List Stall)
    (cs : List Canteen) (bs : List CampusBlock) (r : ScoredStall)
    (hr : r ∈ calculateRecommendations hav u p ub stalls cs bs)
    (h1 : 0 ≤ r.breakdown.preferenceScore) (h2 : r.breakdown.preferenceScore ≤ 1)
    (h3 : 0 ≤ r.breakdown.proximityScore) (h4 : r.breakdown.proximityScore ≤ 1)
    (h5 : 0 ≤ r.breakdown.queueScore) (h6 : r.breakdown.queueScore ≤ 1)
    (h7 : 0 ≤ r.breakdown.ratingScore) (h8 : r.breakdown.ratingScore ≤ 1) :
    r.score =
      r.breakdown.preferenceScore * (35 / 100) +
      r.breakdown.proximityScore * (25 / 100) +
      r.breakdown.queueScore * (20 / 100) +
      r.breakdown.ratingScore * (20 / 100) ∧
    WEIGHTS.PREFERENCE + WEIGHTS.PROXIMITY + WEIGHTS.QUEUE + WEIGHTS.RATING = 1 ∧
    0 ≤ r.score ∧ r.score ≤ 1 := by
  have he := score_eq_weighted (mem_calculateRecommendations.mp hr).1
  refine ⟨he, by norm_num [WEIGHTS], ?_, ?_⟩ <;> rw [he] <;> linarith

/-- Witness for C4 at a concrete input. -/
theorem score_is_weighted_sum_witness :
    0 ≤ sampleScored.score ∧ sampleScored.score ≤ 1 :=
  (score_is_weighted_sum havZero sampleUser none none [sampleStall] [] [] sampleScored
    (by with_unfolding_all decide)
    (by with_unfolding_all decide) (by with_unfolding_all decide)
    (by with_unfolding_all decide) (by with_unfolding_all decide)
    (by with_unfolding_all decide) (by with_unfolding_all decide)
    (by with_unfolding_all decide) (by with_unfolding_all decide)).2.2

/-- C5 (confirmed): for every returned entry, the preference sub-score is
exactly 0.5 when the effective preferred-cuisine set is empty (in particular
when no preferences record is supplied); otherwise it is 0 when some dietary
restriction conflicts with the stall's cuisine (a vegetarian restriction
conflicts with any cuisine label containing "meat" case-insensitively, a
halal restriction with any cuisine label not containing "halal"
case-insensitively), else 1.0 when the stall's cuisine label
case-insensitively equals some preferred cuisine label, else 0.3. -/
theorem preference_subscore_cases (hav : ℚ → ℚ → ℚ → ℚ → ℚ) (u : User)
    (p : Option UserPreferences) (ub : Option CampusBlock) (stalls : List Stall)
    (cs : List Canteen) (bs : List CampusBlock) (r : ScoredStall)
    (hr : r ∈ calculateRecommendations hav u p ub stalls cs bs) :
    (effectiveCuisineTypes p = [] → r.breakdown.preferenceScore = 1 / 2) ∧
    (p = none → r.breakdown.preferenceScore = 1 / 2) ∧
    (effectiveCuisineTypes p ≠ [] →
      ((∃ restr ∈ effectiveDietaryRestrictions p,
          (restr.toLower = "vegetarian" ∧
            jsIncludes r.stall.cuisineType.toLower "meat" = true) ∨
          (restr.toLower = "halal" ∧
            jsIncludes r.stall.cuisineType.toLower "halal" = false)) →
        r.breakdown.preferenceScore = 0) ∧
      (¬(∃ restr ∈ effectiveDietaryRestrictions p,
          (restr.toLower = "vegetarian" ∧
            jsIncludes r.stall.cuisineType.toLower "meat" = true) ∨
          (restr.toLower = "halal" ∧
            jsIncludes r.stall.cuisineType.toLower "halal" = false)) →
        ((∃ c ∈ effectiveCuisineTypes p,
            c.toLower = r.stall.cuisineType.toLower) →
          r.breakdown.preferenceScore = 1) ∧
        (¬(∃ c ∈ effectiveCuisineTypes p,
            c.toLower = r.stall.cuisineType.toLower) →
          r.breakdown.preferenceScore = 3 / 10))) := by
  have hps := preferenceScore_of_mem (mem_calculateRecommendations.mp hr).1
  refine ⟨?_, ?_, ?_⟩
  · intro h
    rw [hps, if_neg]
    simp [h]
  · intro h
    subst h
    rw [hps]
    simp [effectiveCuisineTypes]
  · intro hne
    have hlen : (effectiveCuisineTypes p).length > 0 := List.length_pos.mpr hne
    rw [hps, if_pos hlen]
    refine ⟨fun hex => calculatePreferenceScore_eq_zero hex, fun hnex => ?_⟩
    rw [calculatePreferenceScore_no_conflict hnex]
    constructor
    · intro hprefd
      rw [if_pos ((preferred_exists_iff _ _).mpr hprefd)]
    · intro hnprefd
      rw [if_neg (fun h => hnprefd ((preferred_exists_iff _ _).mp h))]

/-- Witness for C5 at a concrete input (no preferences supplied). -/
theorem preference_subscore_cases_witness :
    sampleScored.breakdown.preferenceScore = 1 / 2 :=
  (preference_subscore_cases havZero sampleUser none none [sampleStall] [] []
    sampleScored (by with_unfolding_all decide)).2.1 rfl

/-- C6 counterexample: a stall whose rating field holds the empty string has
an unparseable rating string (`parseFloat("")` is `NaN`), yet its rating
sub-score is 0.7, not the claimed 0.5, because the `stall.rating || "3.5"`
fallback also replaces the (falsy) empty string. -/
theorem rating_empty_string_counterexample :
    (calculateRecommendations havZero sampleUser none none [emptyRatingStall] [] []).map
        (fun r => r.breakdown.ratingScore) = [7 / 10] ∧
    emptyRatingStall.rating = some "" ∧
    jsParseFloat "" = none ∧
    (7 : ℚ) / 10 ≠ 1 / 2 := by with_unfolding_all decide

/-- C6 (corrected): for every returned entry, the rating sub-score equals
`min(parsedRating/5, 1.0)` when the rating field holds a non-empty string
that parses to a number, 0.5 when it holds a non-empty unparseable string,
and exactly 0.7 when the rating field is absent or holds the empty string
(the caller substitutes the literal string "3.5" for any falsy rating). -/
theorem rating_subscore_cases (hav : ℚ → ℚ → ℚ → ℚ → ℚ) (u : User)
    (p : Option UserPreferences) (ub : Option CampusBlock) (stalls : List Stall)
    (cs : List Canteen) (bs : List CampusBlock) (r : ScoredStall)
    (hr : r ∈ calculateRecommendations hav u p ub stalls cs bs) :
    (r.stall.rating = none ∨ r.stall.rating = some "" →
      r.breakdown.ratingScore = 7 / 10) ∧
    (∀ str q, r.stall.rating = some str → str ≠ "" → jsParseFloat str = some q →
      r.breakdown.ratingScore = min (q / 5) 1) ∧
    (∀ str, r.stall.rating = some str → str ≠ "" → jsParseFloat str = none →
      r.breakdown.ratingScore = 1 / 2) := by
  have hrs := ratingScore_of_mem (mem_calculateRecommendations.mp hr).1
  have h35 : normalizeRating "3.5" = 7 / 10 := by with_unfolding_all decide
  refine ⟨?_, ?_, ?_⟩
  · rintro (h | h) <;> rw [hrs, h] <;> simpa [jsOrStr] using h35
  · intro str q hstr hne hq
    rw [hrs, hstr]
    simp only [jsOrStr, beq_iff_eq, if_neg hne]
    simp [normalizeRating, hq]
  · intro str hstr hne hq
    rw [hrs, hstr]
    simp only [jsOrStr, beq_iff_eq, if_neg hne]
    simp [normalizeRating, hq]

/-- Witness for C6 at concrete inputs: the parseable case. -/
theorem rating_subscore_cases_witness :
    sampleScored.breakdown.ratingScore = min ((9 / 2 : ℚ) / 5) 1 :=
  (rating_subscore_cases havZero sampleUser none none [sampleStall] [] [] sampleScored
    (by with_unfolding_all decide)).2.1 "4.5" (9 / 2) rfl
    (by with_unfolding_all decide) (by with_unfolding_all decide)

/-- C7 (confirmed): the confidence label is low when the user has no
resolved current location block, else medium when no preferences record was
supplied or the effective preferred-cuisine set is empty, else high; and
every entry of one result sequence carries this same label. -/
theorem confidence_label_cases (hav : ℚ → ℚ → ℚ → ℚ → ℚ) (u : User)
    (p : Option UserPreferences) (ub : Option CampusBlock) (stalls : List Stall)
    (cs : List Canteen) (bs : List CampusBlock) (r : ScoredStall)
    (hr : r ∈ calculateRecommendations hav u p ub stalls cs bs) :
    r.confidence = computeConfidence p ub ∧
    (ub = none → computeConfidence p ub = .low) ∧
    (ub ≠ none → p = none ∨ effectiveCuisineTypes p = [] →
      computeConfidence p ub = .medium) ∧
    (ub ≠ none → p ≠ none → effectiveCuisineTypes p ≠ [] →
      computeConfidence p ub = .high) := by
  refine ⟨confidence_of_mem (mem_calculateRecommendations.mp hr).1, ?_, ?_, ?_⟩
  · intro h
    simp [computeConfidence, h]
  · intro hub hmed
    rcases hmed with h | h <;> simp [computeConfidence, Option.isNone_iff_eq_none, hub, h]
  · intro hub hp hc
    simp [computeConfidence, Option.isNone_iff_eq_none, hub, hp,
      List.length_eq_zero, hc]

/-- Witness for C7 at a concrete input (no user block). -/
theorem confidence_label_cases_witness :
    sampleScored.confidence = computeConfidence none none ∧
    computeConfidence none (none : Option CampusBlock) = .low :=
  ⟨(confidence_label_cases havZero sampleUser none none [sampleStall] [] []
      sampleScored (by with_unfolding_all decide)).1,
   (confidence_label_cases havZero sampleUser none none [sampleStall] [] []
      sampleScored (by with_unfolding_all decide)).2.1 rfl⟩

/-- C8 (confirmed): every returned entry's attached canteen is the first
supplied canteen whose id equals the stall's `canteenId` (so exactly the
owning canteen whenever the id occurs in the canteen set); a stall whose
`canteenId` occurs in no supplied canteen is neither skipped nor a failure:
it proceeds with an undefined canteen reference and undefined distance and
can appear in the output. -/
theorem canteen_attachment (hav : ℚ → ℚ → ℚ → ℚ → ℚ) (u : User)
    (p : Option UserPreferences) (ub : Option CampusBlock) (stalls : List Stall)
    (cs : List Canteen) (bs : List CampusBlock) (r : ScoredStall)
    (hr : r ∈ calculateRecommendations hav u p ub stalls cs bs) :
    r.canteen = cs.find? (fun c => c.id == r.stall.canteenId) ∧
    ((∃ cn ∈ cs, cn.id = r.stall.canteenId) →
      ∃ cn, r.canteen = some cn ∧ cn ∈ cs ∧ cn.id = r.stall.canteenId) ∧
    (cs.find? (fun c => c.id == r.stall.canteenId) = none →
      r.canteen = none ∧ r.distance = none) := by
  have hmem := (mem_calculateRecommendations.mp hr).1
  have hc := canteen_of_mem hmem
  refine ⟨hc, ?_, ?_⟩
  · intro hex
    have hsome : (cs.find? (fun c => c.id == r.stall.canteenId)).isSome := by
      rw [List.find?_isSome]
      obtain ⟨cn, hcn, hid⟩ := hex
      exact ⟨cn, hcn, by simp [hid]⟩
    obtain ⟨cn, hcn⟩ := Option.isSome_iff_exists.mp hsome
    refine ⟨cn, by rw [hc, hcn], List.mem_of_find?_eq_some hcn, ?_⟩
    have := List.find?_some hcn
    simpa using this
  · intro hnone
    refine ⟨by rw [hc, hnone], ?_⟩
    rw [distance_of_mem hmem]
    unfold stallDistance
    rcases ub with _ | ubk <;> simp [hnone]

/-- Witness for C8 at a concrete input whose canteen set is empty: the entry
still appears in the output, with no canteen and no distance. -/
theorem canteen_attachment_witness :
    sampleScored.canteen = none ∧ sampleScored.distance = none :=
  (canteen_attachment havZero sampleUser none none [sampleStall] [] [] sampleScored
    (by with_unfolding_all decide)).2.2 rfl

theorem stallDistance_distance (hav : ℚ → ℚ → ℚ → ℚ → ℚ) (ub : Option CampusBlock)
    (cs : List Canteen) (bs : List CampusBlock) (s : Stall) :
    (stallDistance hav ub cs bs s).distance =
      (match ub, cs.find? (fun c => c.id == s.canteenId) with
        | some ubk, some cn =>
          (match bs.find? (fun b => b.nearestCanteenId == some cn.id) with
            | some cb =>
              if strTruthy cb.latitude && strTruthy cb.longitude then
                some (hav (coordVal ubk.latitude) (coordVal ubk.longitude)
                  (coordVal cb.latitude) (coordVal cb.longitude))
              else none
            | none => none)
        | _, _ => none) := rfl

/-- C1 counterexample: the user's location block carries no coordinates at
all, yet the stall's distance is computed (it is `some _` in the output),
because the source checks only the canteen block's coordinates and defaults
the user's to `"0"`. -/
theorem distance_defined_without_user_coords :
    blockNoCoords.latitude = none ∧ blockNoCoords.longitude = none ∧
    (calculateRecommendations havZero sampleUser none (some blockNoCoords)
        [sampleStall] [sampleCanteen] [blockWithCoords]).map (fun r => r.distance) =
      [some 0] := by with_unfolding_all decide

/-- C1 (corrected): a stall's distance is computed (by Haversine between the
user's block's coordinates, each defaulting to 0 when absent, and the first
block whose nearest-canteen reference equals the stall's owning canteen's
id) if and only if the user block is supplied, the stall's `canteenId`
resolves to a canteen, such a block exists, and THAT block carries truthy
latitude and longitude; the user's own block's coordinates are not
required.  Every output entry's distance is the one computed this way for
its stall. -/
theorem distance_defined_iff (hav : ℚ → ℚ → ℚ → ℚ → ℚ) (u : User)
    (p : Option UserPreferences) (ub : Option CampusBlock) (stalls : List Stall)
    (cs : List Canteen) (bs : List CampusBlock) (stall : Stall) :
    ((stallDistance hav ub cs bs stall).distance ≠ none ↔
      ∃ ubk cn cb, ub = some ubk ∧
        cs.find? (fun c => c.id == stall.canteenId) = some cn ∧
        bs.find? (fun b => b.nearestCanteenId == some cn.id) = some cb ∧
        strTruthy cb.latitude = true ∧ strTruthy cb.longitude = true) ∧
    (∀ ubk cn cb, ub = some ubk →
        cs.find? (fun c => c.id == stall.canteenId) = some cn →
        bs.find? (fun b => b.nearestCanteenId == some cn.id) = some cb →
        strTruthy cb.latitude = true → strTruthy cb.longitude = true →
        (stallDistance hav ub cs bs stall).distance =
          some (hav (coordVal ubk.latitude) (coordVal ubk.longitude)
            (coordVal cb.latitude) (coordVal cb.longitude))) ∧
    (∀ r ∈ calculateRecommendations hav u p ub stalls cs bs,
        r.distance = (stallDistance hav ub cs bs r.stall).distance) := by
  refine ⟨⟨?_, ?_⟩, ?_, ?_⟩
  · intro h
    rw [stallDistance_distance] at h
    rcases ub with _ | ubk
    · simp at h
    · rcases hcn : cs.find? (fun c => c.id == stall.canteenId) with _ | cn
      · simp [hcn] at h
      · rcases hcb : bs.find? (fun b => b.nearestCanteenId == some cn.id) with _ | cb
        · simp [hcn, hcb] at h
        · by_cases hco : (strTruthy cb.latitude && strTruthy cb.longitude) = true
          · rw [Bool.and_eq_true] at hco
            exact ⟨ubk, cn, cb, rfl, hcn, hcb, hco.1, hco.2⟩
          · simp [hcn, hcb, hco] at h
  · rintro ⟨ubk, cn, cb, rfl, hcn, hcb, hla, hlo⟩
    rw [stallDistance_distance]
    simp [hcn, hcb, hla, hlo]
  · intro ubk cn cb hub hcn hcb hla hlo
    subst hub
    rw [stallDistance_distance]
    simp [hcn, hcb, hla, hlo]
  · intro r hr
    exact distance_of_mem (mem_calculateRecommendations.mp hr).1

/-- Witness for C1 at a concrete input: the canteen block carries
coordinates, the user block does not, and the distance is still computed
from the default-0 user coordinates. -/
theorem distance_defined_iff_witness :
    (stallDistance havZero (some blockNoCoords) [sampleCanteen] [blockWithCoords]
        sampleStall).distance =
      some (havZero (coordVal blockNoCoords.latitude) (coordVal blockNoCoords.longitude)
        (coordVal blockWithCoords.latitude) (coordVal blockWithCoords.longitude)) :=
  (distance_defined_iff havZero sampleUser none (some blockNoCoords) [sampleStall]
      [sampleCanteen] [blockWithCoords] sampleStall).2.1 blockNoCoords sampleCanteen
    blockWithCoords rfl (by with_unfolding_all decide) (by with_unfolding_all decide)
    (by with_unfolding_all decide) (by with_unfolding_all decide)

/-- C9 (confirmed): among returned entries with equal total scores, the
relative order of the pre-sort sequence (which lists stalls in input order,
since it arises from the input stall sequence by order-preserving maps and
filters) is preserved: for every score value, filtering the output to that
score yields exactly the pre-sort sub-sequence with that score. -/
theorem sort_stable_on_ties (hav : ℚ → ℚ → ℚ → ℚ → ℚ) (u : User)
    (p : Option UserPreferences) (ub : Option CampusBlock) (stalls : List Stall)
    (cs : List Canteen) (bs : List CampusBlock) :
    ∀ q : ℚ,
      (calculateRecommendations hav u p ub stalls cs bs).filter
          (fun s => decide (s.score = q)) =
        (validStalls hav p ub cs bs stalls).filter (fun s => decide (s.score = q)) := by
  intro q
  unfold calculateRecommendations
  exact sortByScoreDesc_filter_score _ q

/-- C10 (confirmed): a supplied preferences record whose `maxQueueTime` is 0
or null is scored against the default 30, and — independently — one whose
`maxWalkingDistance` is 0 or null is scored against the default 1000: in
each case the whole output is the same as with only that limit replaced by
its default, the other limit left as supplied.  In particular a user who
sets a zero limit is scored against the default limit rather than having
every stall hard-filtered out. -/
theorem zero_or_null_limits_use_defaults (hav : ℚ → ℚ → ℚ → ℚ → ℚ) (u : User)
    (p : UserPreferences) (ub : Option CampusBlock) (stalls : List Stall)
    (cs : List Canteen) (bs : List CampusBlock) :
    ((p.maxQueueTime = some 0 ∨ p.maxQueueTime = none) →
      effectiveMaxQueueTime (some p) = 30 ∧
      calculateRecommendations hav u (some p) ub stalls cs bs =
        calculateRecommendations hav u (some { p with maxQueueTime := some 30 })
          ub stalls cs bs) ∧
    ((p.maxWalkingDistance = some 0 ∨ p.maxWalkingDistance = none) →
      effectiveMaxWalkingDistance (some p) = 1000 ∧
      calculateRecommendations hav u (some p) ub stalls cs bs =
        calculateRecommendations hav u (some { p with maxWalkingDistance := some 1000 })
          ub stalls cs bs) := by
  constructor
  · intro hq
    have h1 : effectiveMaxQueueTime (some p) = 30 := by
      rcases hq with h | h <;> simp [effectiveMaxQueueTime, jsOrQ, h]
    have e1 : effectiveMaxQueueTime (some { p with maxQueueTime := some 30 }) = 30 := by
      norm_num [effectiveMaxQueueTime, jsOrQ]
    refine ⟨h1, ?_⟩
    unfold calculateRecommendations
    congr 1
    unfold validStalls scoredStalls filteredStalls
    rw [h1, e1]
    rfl
  · intro hw
    have h2 : effectiveMaxWalkingDistance (some p) = 1000 := by
      rcases hw with h | h <;> simp [effectiveMaxWalkingDistance, jsOrQ, h]
    have e2 : effectiveMaxWalkingDistance
        (some { p with maxWalkingDistance := some 1000 }) = 1000 := by
      norm_num [effectiveMaxWalkingDistance, jsOrQ]
    refine ⟨h2, ?_⟩
    unfold calculateRecommendations
    congr 1
    unfold validStalls scoredStalls filteredStalls
    rw [h2, e2]
    rfl

/-- Witness for C10 at concrete preferences records: one with only a zero
queue limit (walking limit 800 m left in force), one with only a null
walking-distance limit. -/
theorem zero_or_null_limits_use_defaults_witness :
    (effectiveMaxQueueTime (some samplePrefsZeroQueue) = 30 ∧
      calculateRecommendations havZero sampleUser (some samplePrefsZeroQueue) none
          [sampleStall] [] [] =
        calculateRecommendations havZero sampleUser (some samplePrefsZeroQueueSub) none
          [sampleStall] [] []) ∧
    (effectiveMaxWalkingDistance (some samplePrefsZero) = 1000 ∧
      calculateRecommendations havZero sampleUser (some samplePrefsZero) none
          [sampleStall] [] [] =
        calculateRecommendations havZero sampleUser (some samplePrefsZeroWalkSub) none
          [sampleStall] [] []) :=
  ⟨(zero_or_null_limits_use_defaults havZero sampleUser samplePrefsZeroQueue none
      [sampleStall] [] []).1 (Or.inl rfl),
   (zero_or_null_limits_use_defaults havZero sampleUser samplePrefsZero none
      [sampleStall] [] []).2 (Or.inr rfl)⟩

end C290
